import Mathlib

/-!
Shallow embedding of the kh-benchmark mate-engine benchmarking tool
(src/main.rs) and verification of its specification claims.

The tool reads sfen files, drives a USI mate engine over each file on a
thread pool, and aggregates per-file `SolveStats`.  The statistics logic,
the argument check, the per-job error policy, the completion-wait loop and
the report formatting are embedded below; machine integers (`usize`/`u64`)
are modelled as `Nat` (no arithmetic in the program can overflow-wrap by
intent, and no claim concerns wrapping), `Duration` as a `Nat` number of
time units.
-/

/-- Payload of a `checkmate` engine response (the usi crate's
`CheckmateParams`).  `main.rs` matches `Mate(_)`, `NoMate`, and treats every
other variant as an error. -/
inductive CheckmateParams where
  | Mate (moves : List String)
  | NoMate
  | NotImplemented
  | Timeout
deriving DecidableEq

/-- Parameters carried by a USI `info` line (the usi crate's `InfoParams`).
`main.rs` inspects only the `Pv` and `Nodes` variants; the others are listed
so that "no principal-variation entry" is a non-trivial case. -/
inductive InfoParams where
  | Depth (d : Nat)
  | SelDepth (d : Nat)
  | Time (t : Nat)
  | Nodes (n : Nat)
  | Pv (moves : List String)
  | Score (cp : Int)
  | Text (s : String)
deriving DecidableEq

/-- `struct SolveStats` of main.rs: statistics for one solve job.
`elapsed` (a Rust `Duration`) is a `Nat` number of time units. -/
structure SolveStats where
  num_sfens : Nat
  num_mate : Nat
  num_nomate : Nat
  num_errors : Nat
  elapsed : Nat
  nodes : Nat
  last_nodes : Nat
  error_or_nomate_indices : List Nat
deriving DecidableEq

/-- `SolveStats::default()`: every counter zero, empty index list. -/
def SolveStats.default : SolveStats :=
  ⟨0, 0, 0, 0, 0, 0, 0, []⟩

/-- `SolveStats::update_by_checkmate` (main.rs lines 78-96): remembers the
pre-increment `num_sfens` as `sfen_index`, increments `num_sfens`, folds
`last_nodes` into `nodes` and resets it, then bumps the counter matching the
verdict, pushing `sfen_index` for `NoMate` and for the catch-all arm. -/
def SolveStats.update_by_checkmate (s : SolveStats) (mate : CheckmateParams) : SolveStats :=
  let sfen_index := s.num_sfens
  let s1 : SolveStats :=
    { s with
      num_sfens := s.num_sfens + 1
      nodes := s.nodes + s.last_nodes
      last_nodes := 0 }
  match mate with
  | CheckmateParams.Mate _ => { s1 with num_mate := s1.num_mate + 1 }
  | CheckmateParams.NoMate =>
      { s1 with
        num_nomate := s1.num_nomate + 1
        error_or_nomate_indices := s1.error_or_nomate_indices ++ [sfen_index] }
  | _ =>
      { s1 with
        num_errors := s1.num_errors + 1
        error_or_nomate_indices := s1.error_or_nomate_indices ++ [sfen_index] }

/-- `SolveStats::update_by_info` (main.rs lines 98-111): if the info list
contains a `Pv` entry, overwrite `last_nodes` with the first reported
`Nodes` value (defaulting to 0); otherwise do nothing. -/
def SolveStats.update_by_info (s : SolveStats) (info : List InfoParams) : SolveStats :=
  let has_pv := info.any fun x =>
    match x with
    | InfoParams.Pv _ => true
    | _ => false
  if has_pv then
    let nodes := (info.findSome? fun x =>
      match x with
      | InfoParams.Nodes n => some n
      | _ => none).getD 0
    { s with last_nodes := nodes }
  else s

/-- One invocation of the listener closure registered in `solve`
(main.rs lines 212-229): a `Checkmate` response or an `Info` response.
Responses matching neither arm leave the state unchanged and are omitted. -/
inductive SolveEvent where
  | checkmate (mate : CheckmateParams)
  | info (params : List InfoParams)
deriving DecidableEq

/-- Apply one listener event to the shared `SolveStats`. -/
def SolveStats.applyEvent (s : SolveStats) (e : SolveEvent) : SolveStats :=
  match e with
  | SolveEvent.checkmate m => s.update_by_checkmate m
  | SolveEvent.info ps => s.update_by_info ps

/-- The `SolveStats` value reached from the all-zero default after the
listener has processed the given event sequence. -/
def runEvents (es : List SolveEvent) : SolveStats :=
  es.foldl SolveStats.applyEvent SolveStats.default

/-- Whether a verdict is pushed onto `error_or_nomate_indices`:
every verdict other than `Mate(_)`. -/
def CheckmateParams.flagged : CheckmateParams → Bool
  | CheckmateParams.Mate _ => false
  | _ => true

/-- The verdicts contained in an event sequence, in processing order. -/
def verdictsOf (es : List SolveEvent) : List CheckmateParams :=
  es.filterMap fun e =>
    match e with
    | SolveEvent.checkmate m => some m
    | SolveEvent.info _ => none

/-- Specification-side list of flagged indices: position `k + i` for every
flagged verdict at offset `i` of the list. -/
def flaggedIndicesFrom (k : Nat) : List CheckmateParams → List Nat
  | [] => []
  | v :: vs =>
      if v.flagged then k :: flaggedIndicesFrom (k + 1) vs
      else flaggedIndicesFrom (k + 1) vs

/-- Specification-side flagged-index list of a verdict sequence, 0-based. -/
def flaggedIndicesSpec (vs : List CheckmateParams) : List Nat :=
  flaggedIndicesFrom 0 vs

/-- Whether an info list carries a principal-variation entry
(the `has_pv` test of `update_by_info`). -/
def has_pv (info : List InfoParams) : Bool :=
  info.any fun x =>
    match x with
    | InfoParams.Pv _ => true
    | _ => false

/-- Whether an info list carries a node-count entry. -/
def has_nodes_entry (info : List InfoParams) : Bool :=
  info.any fun x =>
    match x with
    | InfoParams.Nodes _ => true
    | _ => false

/-- The node count `update_by_info` reads out of an info list: the first
`Nodes` entry, or 0 when there is none (`find_map ... unwrap_or(0)`). -/
def reported_nodes (info : List InfoParams) : Nat :=
  (info.findSome? fun x =>
    match x with
    | InfoParams.Nodes n => some n
    | _ => none).getD 0

/-- The listener event sequence of spec Scenario A: progress with node
counts 10, 5, 20 (each carrying a PV) before verdicts Mate, NoMate, Mate. -/
def scenarioA : List SolveEvent :=
  [ SolveEvent.info [InfoParams.Nodes 10, InfoParams.Pv ["7g7f"]]
  , SolveEvent.checkmate (CheckmateParams.Mate ["7g7f"])
  , SolveEvent.info [InfoParams.Nodes 5, InfoParams.Pv ["7g7f"]]
  , SolveEvent.checkmate CheckmateParams.NoMate
  , SolveEvent.info [InfoParams.Nodes 20, InfoParams.Pv ["7g7f"]]
  , SolveEvent.checkmate (CheckmateParams.Mate ["7g7f"]) ]

/-- `struct EngineOptions` of main.rs (thread count and hash size). -/
structure EngineOptions where
  threads : Nat
  hash : Nat
deriving DecidableEq

/-- `struct Args` of main.rs (the help flag is omitted: it never reaches
`check_args` logic). -/
structure Args where
  engine_path : String
  sfen_paths : List String
  workers : Nat
  engine_options : EngineOptions
deriving DecidableEq

/-- The two `bail!` messages of `check_args`. -/
inductive ArgsError where
  | noSfenFiles
  | zeroThreads
deriving DecidableEq

/-- `check_args` (main.rs lines 117-127): reject an empty sfen-path list,
then a zero engine-thread count; accept everything else. -/
def check_args (args : Args) : Except ArgsError Unit :=
  if args.sfen_paths.isEmpty then Except.error ArgsError.noSfenFiles
  else if args.engine_options.threads = 0 then Except.error ArgsError.zeroThreads
  else Except.ok ()

/-- The error classes `solve` can propagate through `?`
(main.rs lines 190-247). -/
inductive SolveError where
  | fileOpenError
  | spawnError
  | commandError
deriving DecidableEq

/-- Environment of one `solve` call: the outcome of each fallible external
step and the event sequence the listener observes.  `fileLines = none`
models `File::open` failing; `spawnOk` models `UsiEngineHandler::spawn`;
`configOk` models the option/prepare/usinewgame commands of
`initialize_engine`; `sendOk` models the two `send_command` calls of
`start_searching` for a given sfen line; `elapsedTime` is the measured
duration of the successful run. -/
structure SolveEnv where
  fileLines : Option (List String)
  spawnOk : Bool
  configOk : Bool
  sendOk : String → Bool
  events : List SolveEvent
  elapsedTime : Nat

/-- Control flow of `solve` (main.rs lines 190-247): open and count the
file, spawn and configure the engine, submit every line, then return the
listener-accumulated statistics with `elapsed` filled in.  Each `?` failure
becomes the corresponding `SolveError`. -/
def solve (env : SolveEnv) : Except SolveError SolveStats :=
  match env.fileLines with
  | none => Except.error SolveError.fileOpenError
  | some lines =>
      if env.spawnOk = false then Except.error SolveError.spawnError
      else if env.configOk = false then Except.error SolveError.commandError
      else if lines.all env.sendOk = false then Except.error SolveError.commandError
      else
        let stats := runEvents env.events
        Except.ok { stats with elapsed := env.elapsedTime }

/-- The job result sent over the channel in `main` (main.rs line 300):
`solve(...).unwrap_or_default()`. -/
def jobResult (env : SolveEnv) : SolveStats :=
  match solve env with
  | Except.ok s => s
  | Except.error _ => SolveStats.default

/-- Number of sfens expected from a file, given its list of lines
(`BufReader::new(File::open(..)).lines().count()`, main.rs line 197). -/
def line_count (file_lines : List String) : Nat := file_lines.length

/-- The completion wait of `solve` (main.rs lines 237-239): re-check the
shared `num_sfens` (here `trace i`, its value at the i-th check) against
the expected total, sleeping between checks.  `completion_wait trace
expected fuel i` returns `some j` when the guard first fails at check `j`
(so `j - i` sleeps were executed after check `i`), `none` if the guard
still holds after `fuel` checks. -/
def completion_wait (trace : Nat → Nat) (expected : Nat) : Nat → Nat → Option Nat
  | 0, _ => none
  | fuel + 1, i =>
      if trace i < expected then completion_wait trace expected fuel (i + 1)
      else some i

/-- The flagged-index report line of `print_stats` (main.rs lines 265-282):
`none` when the list is empty; otherwise the first 10 indices joined by
", ", with ", ..." appended when more than 10 were flagged. -/
def error_or_nomate_indices_line (indices : List Nat) : Option String :=
  if indices.isEmpty then none
  else
    let is_too_many_indices := decide (indices.length > 10)
    let truncated := if is_too_many_indices then indices.take 10 else indices
    let joined := String.intercalate ", " (truncated.map (fun i => toString i))
    some (if is_too_many_indices then joined ++ ", ..." else joined)

/-- `update_by_info` touches only `last_nodes`: every other field survives. -/
theorem update_by_info_proj (s : SolveStats) (info : List InfoParams) :
    (s.update_by_info info).num_sfens = s.num_sfens ∧
    (s.update_by_info info).num_mate = s.num_mate ∧
    (s.update_by_info info).num_nomate = s.num_nomate ∧
    (s.update_by_info info).num_errors = s.num_errors ∧
    (s.update_by_info info).elapsed = s.elapsed ∧
    (s.update_by_info info).nodes = s.nodes ∧
    (s.update_by_info info).error_or_nomate_indices = s.error_or_nomate_indices := by
  unfold SolveStats.update_by_info
  by_cases h : (info.any fun x =>
      match x with
      | InfoParams.Pv _ => true
      | _ => false) = true
  · simp [h]
  · simp [h]

/-- Field characterization of `update_by_checkmate`: `num_sfens` goes up by
one and the pre-increment value is appended to the index list exactly for
flagged verdicts. -/
theorem update_by_checkmate_proj (s : SolveStats) (m : CheckmateParams) :
    (s.update_by_checkmate m).num_sfens = s.num_sfens + 1 ∧
    (s.update_by_checkmate m).error_or_nomate_indices
      = s.error_or_nomate_indices ++ (if m.flagged then [s.num_sfens] else []) := by
  cases m <;> simp [SolveStats.update_by_checkmate, CheckmateParams.flagged]

/-- One event preserves the counter balance
`num_mate + num_nomate + num_errors = num_sfens`. -/
theorem applyEvent_counts (s : SolveStats) (e : SolveEvent)
    (h : s.num_mate + s.num_nomate + s.num_errors = s.num_sfens) :
    (s.applyEvent e).num_mate + (s.applyEvent e).num_nomate + (s.applyEvent e).num_errors
      = (s.applyEvent e).num_sfens := by
  cases e with
  | checkmate m =>
      cases m <;> simp [SolveStats.applyEvent, SolveStats.update_by_checkmate] <;> omega
  | info ps =>
      obtain ⟨h1, h2, h3, h4, _, _, _⟩ := update_by_info_proj s ps
      simp [SolveStats.applyEvent, h1, h2, h3, h4, h]

/-- The counter balance is preserved by any event fold. -/
theorem foldl_counts (es : List SolveEvent) (s : SolveStats)
    (h : s.num_mate + s.num_nomate + s.num_errors = s.num_sfens) :
    (es.foldl SolveStats.applyEvent s).num_mate
      + (es.foldl SolveStats.applyEvent s).num_nomate
      + (es.foldl SolveStats.applyEvent s).num_errors
      = (es.foldl SolveStats.applyEvent s).num_sfens := by
  induction es generalizing s with
  | nil => exact h
  | cons e es ih => exact ih (s.applyEvent e) (applyEvent_counts s e h)

/-- Claim C1: for every reachable `SolveStats` value (starting from the
all-zero default and applying any sequence of `update_by_checkmate` and
`update_by_info` calls), `num_mate + num_nomate + num_errors = num_sfens`
holds after every update. -/
theorem claim_C1_counter_balance (es : List SolveEvent) :
    (runEvents es).num_mate + (runEvents es).num_nomate + (runEvents es).num_errors
      = (runEvents es).num_sfens :=
  foldl_counts es SolveStats.default rfl

/-- Folding any event list tracks the verdict count in `num_sfens` and
extends `error_or_nomate_indices` by exactly the flagged verdict indices,
offset by the starting `num_sfens`. -/
theorem foldl_flagged (es : List SolveEvent) (s : SolveStats) :
    (es.foldl SolveStats.applyEvent s).num_sfens = s.num_sfens + (verdictsOf es).length ∧
    (es.foldl SolveStats.applyEvent s).error_or_nomate_indices
      = s.error_or_nomate_indices ++ flaggedIndicesFrom s.num_sfens (verdictsOf es) := by
  induction es generalizing s with
  | nil => simp [verdictsOf, flaggedIndicesFrom]
  | cons e es ih =>
      cases e with
      | info ps =>
          obtain ⟨ihn, ihi⟩ := ih (s.applyEvent (SolveEvent.info ps))
          obtain ⟨h1, _, _, _, _, _, h7⟩ := update_by_info_proj s ps
          constructor
        -- the info event changes neither num_sfens nor the index list
          · rw [List.foldl_cons, ihn]
            simp [SolveStats.applyEvent, h1, verdictsOf]
          · rw [List.foldl_cons, ihi]
            simp [SolveStats.applyEvent, h1, h7, verdictsOf]
      | checkmate m =>
          obtain ⟨ihn, ihi⟩ := ih (s.applyEvent (SolveEvent.checkmate m))
          obtain ⟨h1, h2⟩ := update_by_checkmate_proj s m
          have hv : verdictsOf (SolveEvent.checkmate m :: es) = m :: verdictsOf es := by
            simp [verdictsOf]
          constructor
          · rw [List.foldl_cons, ihn]
            simp [SolveStats.applyEvent] at h1 ⊢
            rw [h1, hv]
            simp [Nat.add_assoc, Nat.add_comm 1]
          · rw [List.foldl_cons, ihi]
            simp [SolveStats.applyEvent] at h1 h2 ⊢
            rw [h1, h2, hv]
            by_cases hf : m.flagged = true <;>
              simp [flaggedIndicesFrom, hf, List.append_assoc]

/-- Every member of `flaggedIndicesFrom k vs` is at least `k`. -/
theorem flaggedIndicesFrom_le (vs : List CheckmateParams) (k : Nat) :
    ∀ x ∈ flaggedIndicesFrom k vs, k ≤ x := by
  induction vs generalizing k with
  | nil => simp [flaggedIndicesFrom]
  | cons v vs ih =>
      intro x hx
      by_cases hf : v.flagged = true <;> simp [flaggedIndicesFrom, hf] at hx
      · rcases hx with rfl | hx
        · exact Nat.le_refl x
        · exact Nat.le_of_succ_le (ih (k + 1) x hx)
      · exact Nat.le_of_succ_le (ih (k + 1) x hx)

/-- `flaggedIndicesFrom` produces a strictly increasing list. -/
theorem flaggedIndicesFrom_sorted (vs : List CheckmateParams) (k : Nat) :
    List.Sorted (· < ·) (flaggedIndicesFrom k vs) := by
  induction vs generalizing k with
  | nil => simp [flaggedIndicesFrom]
  | cons v vs ih =>
      by_cases hf : v.flagged = true <;> simp [flaggedIndicesFrom, hf]
      · exact ⟨fun x hx => Nat.lt_of_succ_le (flaggedIndicesFrom_le vs (k + 1) x hx),
          ih (k + 1)⟩
      · exact ih (k + 1)

/-- Claim C2: for every reachable `SolveStats` value,
`error_or_nomate_indices` is strictly increasing and contains exactly the
(0-based, pre-increment `num_sfens`) indices of the verdicts that were
`NoMate` or non-Mate/non-NoMate (Error), in the order those verdicts were
processed. -/
theorem claim_C2_flagged_indices (es : List SolveEvent) :
    (runEvents es).error_or_nomate_indices = flaggedIndicesSpec (verdictsOf es) ∧
    List.Sorted (· < ·) (runEvents es).error_or_nomate_indices := by
  obtain ⟨_, hi⟩ := foldl_flagged es SolveStats.default
  have he : (runEvents es).error_or_nomate_indices
      = flaggedIndicesFrom 0 (verdictsOf es) := by
    simpa [runEvents, SolveStats.default] using hi
  exact ⟨he, he ▸ flaggedIndicesFrom_sorted (verdictsOf es) 0⟩

/-- Claim C3: Scenario A — progress 10 (with PV), Mate, progress 5 (with
PV), NoMate, progress 20 (with PV), Mate — ends with `num_sfens = 3`,
`num_mate = 2`, `num_nomate = 1`, `num_errors = 0`, `nodes = 35`,
`error_or_nomate_indices = [1]`. -/
theorem claim_C3_scenarioA :
    (runEvents scenarioA).num_sfens = 3 ∧
    (runEvents scenarioA).num_mate = 2 ∧
    (runEvents scenarioA).num_nomate = 1 ∧
    (runEvents scenarioA).num_errors = 0 ∧
    (runEvents scenarioA).nodes = 35 ∧
    (runEvents scenarioA).error_or_nomate_indices = [1] :=
  ⟨rfl, rfl, rfl, rfl, rfl, rfl⟩

/-- `update_by_info` in closed form: replace `last_nodes` by the reported
node count when a PV entry is present, otherwise do nothing. -/
theorem update_by_info_eq (s : SolveStats) (info : List InfoParams) :
    s.update_by_info info
      = if has_pv info then { s with last_nodes := reported_nodes info } else s := rfl

/-- Claim C4: `update_by_info` on an info list without a PV entry leaves
every field unchanged; on a list with a PV entry it overwrites `last_nodes`
with the reported node count (replacement, not addition) and changes no
other field. -/
theorem claim_C4_info_pv_gating (s : SolveStats) (info : List InfoParams) :
    (has_pv info = false → s.update_by_info info = s) ∧
    (has_pv info = true →
      s.update_by_info info = { s with last_nodes := reported_nodes info }) := by
  constructor <;> intro h <;> simp [update_by_info_eq, h]

/-- Claim C4 witness: a PV-free info list leaves a concrete state intact;
a PV-carrying list replaces `last_nodes = 7` by the reported 42. -/
theorem claim_C4_witness :
    (has_pv [InfoParams.Depth 2] = false ∧
      SolveStats.update_by_info ⟨0, 0, 0, 0, 0, 3, 7, []⟩ [InfoParams.Depth 2]
        = ⟨0, 0, 0, 0, 0, 3, 7, []⟩) ∧
    (has_pv [InfoParams.Pv ["7g7f"], InfoParams.Nodes 42] = true ∧
      SolveStats.update_by_info ⟨0, 0, 0, 0, 0, 3, 7, []⟩
          [InfoParams.Pv ["7g7f"], InfoParams.Nodes 42]
        = ⟨0, 0, 0, 0, 0, 3, 42, []⟩) := by
  refine ⟨⟨rfl, ?_⟩, ⟨rfl, ?_⟩⟩
  · exact (claim_C4_info_pv_gating _ _).1 rfl
  · exact (claim_C4_info_pv_gating _ _).2 rfl

/-- Without a `Nodes` entry the node count read by `update_by_info` is 0. -/
theorem reported_nodes_eq_zero (info : List InfoParams)
    (h : has_nodes_entry info = false) : reported_nodes info = 0 := by
  induction info with
  | nil => rfl
  | cons x xs ih =>
      cases x <;>
        simp [has_nodes_entry, reported_nodes, List.findSome?_cons] at h ⊢ <;>
        exact ih (by simpa [has_nodes_entry] using h)

/-- Claim C10: an info list with a PV entry but no node-count entry makes
`update_by_info` overwrite `last_nodes` with 0, discarding any earlier
reported count. -/
theorem claim_C10_pv_without_nodes (s : SolveStats) (info : List InfoParams)
    (hpv : has_pv info = true) (hnodes : has_nodes_entry info = false) :
    (s.update_by_info info).last_nodes = 0 := by
  simp [update_by_info_eq, hpv, reported_nodes_eq_zero info hnodes]

/-- Claim C10 witness: a bare-PV info list zeroes a previous `last_nodes`
of 7. -/
theorem claim_C10_witness :
    has_pv [InfoParams.Pv ["7g7f"]] = true ∧
    has_nodes_entry [InfoParams.Pv ["7g7f"]] = false ∧
    (SolveStats.update_by_info ⟨0, 0, 0, 0, 0, 3, 7, []⟩
        [InfoParams.Pv ["7g7f"]]).last_nodes = 0 :=
  ⟨rfl, rfl, claim_C10_pv_without_nodes ⟨0, 0, 0, 0, 0, 3, 7, []⟩ _ rfl rfl⟩

/-- Claim C5: any file-open, spawn or command failure in `solve` makes the
job result (`solve(..).unwrap_or_default()`) the all-zero default: every
counter zero, empty flagged-index list, zero elapsed. -/
theorem claim_C5_failed_job_default (env : SolveEnv)
    (h : env.fileLines = none ∨ env.spawnOk = false ∨ env.configOk = false ∨
      (env.fileLines.getD []).all env.sendOk = false) :
    jobResult env = SolveStats.default ∧
    (jobResult env).num_sfens = 0 ∧ (jobResult env).num_mate = 0 ∧
    (jobResult env).num_nomate = 0 ∧ (jobResult env).num_errors = 0 ∧
    (jobResult env).nodes = 0 ∧ (jobResult env).last_nodes = 0 ∧
    (jobResult env).elapsed = 0 ∧ (jobResult env).error_or_nomate_indices = [] := by
  have hres : jobResult env = SolveStats.default := by
    rcases henv : env.fileLines with _ | lines
    · simp [jobResult, solve, henv]
    · rcases h with h | h | h | h
      · rw [henv] at h
        exact absurd h (by simp)
      · simp [jobResult, solve, henv, h]
      · cases hs : env.spawnOk <;> simp [jobResult, solve, henv, hs, h]
      · rw [henv] at h
        simp only [Option.getD_some] at h
        cases hs : env.spawnOk <;> cases hc : env.configOk <;>
          simp [jobResult, solve, henv, hs, hc, h]
  refine ⟨hres, ?_⟩
  rw [hres]
  exact ⟨rfl, rfl, rfl, rfl, rfl, rfl, rfl, rfl⟩

/-- Claim C5 witness: a job whose file fails to open reports the all-zero
default statistics. -/
theorem claim_C5_witness :
    SolveEnv.fileLines ⟨none, true, true, fun _ => true, [], 0⟩ = none ∧
    jobResult ⟨none, true, true, fun _ => true, [], 0⟩ = SolveStats.default :=
  ⟨rfl, (claim_C5_failed_job_default ⟨none, true, true, fun _ => true, [], 0⟩
    (Or.inl rfl)).1⟩

/-- Claim C6 counterexample: with a non-empty file list and a positive
thread count but a worker count of zero, `check_args` succeeds — the
argument check does not reject a zero worker count, contrary to the
claim. -/
theorem claim_C6_counterexample :
    check_args ⟨"engine", ["a.sfen"], 0, ⟨1, 16⟩⟩ = Except.ok () := rfl

/-- Claim C6 (amended): the argument check rejects as a fatal error an
empty input-file list and a zero engine-thread count; every other argument
combination — a zero worker count included — succeeds. -/
theorem claim_C6_amended (args : Args) :
    check_args args = Except.ok ()
      ↔ (args.sfen_paths ≠ [] ∧ args.engine_options.threads ≠ 0) := by
  unfold check_args
  by_cases h1 : args.sfen_paths.isEmpty <;>
    by_cases h2 : args.engine_options.threads = 0 <;>
      simp_all [List.isEmpty_iff]

/-- Claim C8: an empty input file yields an expected total of 0, and the
completion wait of `solve` exits at its very first guard check — zero sleep
iterations — for every observed counter trace and every fuel bound. -/
theorem claim_C8_empty_file (trace : Nat → Nat) (fuel : Nat) :
    line_count [] = 0 ∧
    completion_wait trace (line_count []) (fuel + 1) 0 = some 0 := by
  refine ⟨rfl, ?_⟩
  simp [completion_wait, line_count]

/-- Claim C9: the flagged-index report line shows exactly the first 10
indices followed by an ellipsis marker when more than 10 are flagged, all
indices with no ellipsis when between 1 and 10 are flagged, and is absent
when none are flagged. -/
theorem claim_C9_indices_report (indices : List Nat) :
    (indices.length > 10 →
      error_or_nomate_indices_line indices
        = some (String.intercalate ", "
            ((indices.take 10).map (fun i => toString i)) ++ ", ...")) ∧
    (indices ≠ [] → indices.length ≤ 10 →
      error_or_nomate_indices_line indices
        = some (String.intercalate ", " (indices.map (fun i => toString i)))) ∧
    (indices = [] → error_or_nomate_indices_line indices = none) := by
  refine ⟨?_, ?_, ?_⟩
  · intro h
    have hne : indices.isEmpty = false := by
      cases indices
      · simp at h
      · rfl
    simp [error_or_nomate_indices_line, hne, h]
  · intro hne hle
    have hne2 : indices.isEmpty = false := by
      cases indices
      · exact absurd rfl hne
      · rfl
    have hgt : ¬ indices.length > 10 := by omega
    simp [error_or_nomate_indices_line, hne2, hgt]
  · intro h
    subst h
    rfl

/-- Claim C9 witness: 15 flagged indices print as the first 10 plus the
ellipsis marker, 3 print in full, and an empty list prints no line. -/
theorem claim_C9_witness :
    ((List.range 15).length > 10 ∧
      error_or_nomate_indices_line (List.range 15)
        = some (String.intercalate ", "
            (((List.range 15).take 10).map (fun i => toString i)) ++ ", ...")) ∧
    error_or_nomate_indices_line [3, 4, 5]
      = some (String.intercalate ", " ([3, 4, 5].map (fun i => toString i))) ∧
    error_or_nomate_indices_line ([] : List Nat) = none := by
  refine ⟨⟨by decide, (claim_C9_indices_report (List.range 15)).1 (by decide)⟩, ?_, ?_⟩
  · exact (claim_C9_indices_report [3, 4, 5]).2.1 (by decide) (by decide)
  · exact (claim_C9_indices_report []).2.2 rfl
